import Mathlib

/-
Verification of the mini_checkin_app matching core.

This file is a shallow embedding, in Lean 4, of the pieces of the
mini_checkin_app repository that its specification talks about:

* the Scan-ID CSV "latest record" selection (ScanIDService.js),
* the name/DOB normalisation helpers (WixService.js, WixDirectApi.js),
* the member-matching fallback pipelines
  (WixService.js findMember, WixDirectApi.js searchMemberByNameOrDOB,
   WixSdkAdapter.js searchMember, both drafts),
* candidate deduplication and exact-match promotion.

JavaScript strings are modelled as Lean String values, with the handful
of JS string operations the code uses (toLowerCase, toUpperCase, split,
trim, includes, join, template rendering of undefined) re-implemented
by structural recursion over the character list so that every
definition is executable and kernel-reducible.  JS undefined on string
fields is modelled as Option String (none = undefined), and JS
truthiness of a string value s is (s is neither undefined nor empty).
Remote HTTP/SDK calls are modelled by oracle functions from the request
actually built by the code to an Except value: .ok is a successful
response carrying the response array, .error is a rejected
promise/thrown error.  Each matching operation additionally returns
the list of remote calls it issued, so that "this source was never
consulted" is a provable statement.
-/

namespace MiniCheckin

/-- Decidable equality for Except values, so that concrete runs of the
embedded operations can be checked by decide. -/
instance {ε α : Type} [DecidableEq ε] [DecidableEq α] : DecidableEq (Except ε α) := fun x y =>
  match x, y with
  | .ok a, .ok b =>
    if h : a = b then .isTrue (h ▸ rfl) else .isFalse (fun hc => h (Except.ok.inj hc))
  | .error a, .error b =>
    if h : a = b then .isTrue (h ▸ rfl) else .isFalse (fun hc => h (Except.error.inj hc))
  | .ok _, .error _ => .isFalse (fun hc => Except.noConfusion hc)
  | .error _, .ok _ => .isFalse (fun hc => Except.noConfusion hc)

/-! ## JS string semantics -/

/-- ASCII lower-casing of one character, as toLowerCase does on ASCII. -/
def asciiLower (c : Char) : Char :=
  if 'A' ≤ c ∧ c ≤ 'Z' then Char.ofNat (c.toNat + 32) else c

/-- ASCII upper-casing of one character, as toUpperCase does on ASCII. -/
def asciiUpper (c : Char) : Char :=
  if 'a' ≤ c ∧ c ≤ 'z' then Char.ofNat (c.toNat - 32) else c

/-- JS String.prototype.toLowerCase (ASCII fragment). -/
def jsToLower (s : String) : String := String.mk (s.data.map asciiLower)

/-- JS String.prototype.toUpperCase (ASCII fragment). -/
def jsToUpper (s : String) : String := String.mk (s.data.map asciiUpper)

/-- Helper for jsSplit: walk the characters, cutting at the separator. -/
def splitChAux (sep : Char) : List Char → List Char → List String
  | [], acc => [String.mk acc.reverse]
  | c :: cs, acc =>
    if c = sep then String.mk acc.reverse :: splitChAux sep cs []
    else splitChAux sep cs (c :: acc)

/-- JS String.prototype.split with a one-character separator.
Like in JS, splitting the empty string yields a list holding one
empty string. -/
def jsSplit (s : String) (sep : Char) : List String := splitChAux sep s.data []

/-- JS String.prototype.trim. -/
def jsTrim (s : String) : String :=
  String.mk (((s.data.dropWhile Char.isWhitespace).reverse.dropWhile
    Char.isWhitespace).reverse)

/-- JS Array.prototype.join with a separator string. -/
def joinWith (sep : String) : List String → String
  | [] => ""
  | [x] => x
  | x :: xs => x ++ sep ++ joinWith sep xs

/-- JS String.prototype.includes (substring containment). -/
def jsIncludes (s sub : String) : Bool :=
  (List.range (s.data.length + 1)).any fun i => sub.data.isPrefixOf (s.data.drop i)

/-- JS truthiness test for a possibly-undefined string: undefined and
the empty string are falsy. -/
def falsyO (o : Option String) : Bool :=
  match o with
  | none => true
  | some s => s == ""

/-- Coerce a possibly-undefined string to the string JS uses once it is
guarded by a truthiness check or a trailing short-circuit. -/
def optS (o : Option String) : String := o.getD ""

/-- JS a short-circuit-or b on strings: the empty string falls through. -/
def jsOr (a b : String) : String := if a = "" then b else a

/-- JS a short-circuit-or b on possibly-undefined strings. -/
def jsOrO (a b : Option String) : Option String := if falsyO a then b else a

/-- Rendering of a possibly-undefined string inside a JS template
literal: undefined prints as the text undefined. -/
def jsTemplate (o : Option String) : String := o.getD "undefined"

/-- The blank test the services use on each criterion:
not supplied, empty, or whitespace-only. -/
def isBlank (s : String) : Bool := jsTrim s == ""

/-! ## Name normalisation (WixService.js toTitleCase, findMember) -/

/-- One word of toTitleCase: first letter upper-cased, remainder kept
(the remainder is already lower-case because the whole string was
lower-cased first).  charAt(0) of the empty word is the empty string. -/
def capWord (w : String) : String :=
  match w.data with
  | [] => ""
  | c :: cs => String.mk (asciiUpper c :: cs)

/-- WixService.js toTitleCase: lower-case the whole string, split on
single spaces, capitalise each word, join with single spaces. -/
def toTitleCase (s : String) : String :=
  if s = "" then ""
  else joinWith " " ((jsSplit (jsToLower s) ' ').map capWord)

/-- WixService.js findMember, lines 90-107: the first-name variant list.
It holds the full formatted first name, every space-separated part that
is longer than one character, and, when there are several parts, the
first part once more. -/
def firstNameVariations (formattedFirstName : String) : List String :=
  let parts := jsSplit formattedFirstName ' '
  ([formattedFirstName] ++ parts.filter (fun p => p.length > 1)) ++
    (if parts.length > 1 then [parts.headD ""] else [])

/-- The variant list built for a raw (scan-cased) first name. -/
def variationsOf (firstName : String) : List String :=
  firstNameVariations (toTitleCase firstName)

/-! ## Date-of-birth normalisation -/

/-- WixService.js findMember, lines 118-126: destructure
dateOfBirth.split(the dash) into month, day, year and rebuild
year-month-day with a template literal.  Destructuring a short array
does NOT throw in JS; a missing component is undefined and renders as
the text undefined in the template, so the catch branch is dead code
for string inputs. -/
def formatDOB003 (dateOfBirth : String) : String :=
  let parts := jsSplit dateOfBirth '-'
  jsTemplate parts[2]? ++ "-" ++ jsTemplate parts[0]? ++ "-" ++ jsTemplate parts[1]?

/-- WixService.js findMember, lines 114-127: formattedDOB stays empty
when no dateOfBirth was supplied. -/
def formattedDOB003 (dateOfBirth : String) : String :=
  if dateOfBirth = "" then "" else formatDOB003 dateOfBirth

/-- WixDirectApi.js searchMemberByNameOrDOB, lines 301-310: reformat
only when the string has exactly three dash-separated parts whose last
part has four characters; otherwise the original string passes through
unchanged. -/
def formatDob004 (dob : String) : String :=
  if dob.data.contains '-' then
    let parts := jsSplit dob '-'
    if parts.length = 3 ∧ (parts[2]?.getD "").length = 4 then
      (parts[2]?.getD "") ++ "-" ++ (parts[0]?.getD "") ++ "-" ++ (parts[1]?.getD "")
    else dob
  else dob

/-! ## Scan-ID CSV reader (ScanIDService.js)

The service parses the CSV into records (csv-parse with columns: true),
sorts the records by the date part of the CREATED column, descending,
and returns the first record after the sort.  A CSV cell is a string;
a missing column is modelled as none (undefined). -/

/-- One parsed CSV row of the Scan-ID export, with the columns the
service reads.  Field names mirror the CSV headers. -/
structure ScanRow where
  FIRSTNAME : Option String := none
  LASTNAME : Option String := none
  FULLNAME : Option String := none
  BIRTHDATE : Option String := none
  AGE : Option String := none
  DRVLCNO : Option String := none
  EXPIRESON : Option String := none
  ISSUEDON : Option String := none
  CREATED : Option String := none
  Image1 : Option String := none
deriving Repr, DecidableEq

/-- The ScanRecord shape returned to the UI (field mapping of
getLatestScan). -/
structure ScanRecord where
  FirstName : Option String := none
  LastName : Option String := none
  FullName : Option String := none
  DateOfBirth : Option String := none
  Age : Option String := none
  IDNumber : Option String := none
  IDExpiration : Option String := none
  IDIssued : Option String := none
  ScanTime : Option String := none
  PhotoPath : Option String := none
deriving Repr, DecidableEq

/-- getLatestScan field mapping from raw CSV columns to the canonical
record shape. -/
def scanRowToRecord (r : ScanRow) : ScanRecord :=
  { FirstName := r.FIRSTNAME
    LastName := r.LASTNAME
    FullName := r.FULLNAME
    DateOfBirth := r.BIRTHDATE
    Age := r.AGE
    IDNumber := r.DRVLCNO
    IDExpiration := r.EXPIRESON
    IDIssued := r.ISSUEDON
    ScanTime := r.CREATED
    PhotoPath := r.Image1 }

/-- Replace every occurrence of one character, as the regex replace
with the global flag does for a one-character pattern. -/
def jsReplaceAllCh (s : String) (a b : Char) : String :=
  String.mk (s.data.map fun c => if c = a then b else c)

/-- Value of one decimal digit. -/
def decDigit? (c : Char) : Option Nat :=
  if '0' ≤ c ∧ c ≤ '9' then some (c.toNat - 48) else none

/-- Helper: read a decimal numeral. -/
def natOfDigitsAux : List Char → Nat → Option Nat
  | [], acc => some acc
  | c :: cs, acc =>
    match decDigit? c with
    | some d => natOfDigitsAux cs (acc * 10 + d)
    | none => none

/-- Read a non-empty all-digit string as a number; anything else is
not a numeric date component. -/
def natOfDigits (s : String) : Option Nat :=
  if s.data.isEmpty then none else natOfDigitsAux s.data 0

/-- Model of new Date(s) for the dash-joined date strings this code
builds: three numeric dash-separated components, read as YYYY-MM-DD
when the first component has four-digit magnitude and as MM-DD-YYYY
otherwise (the V8 fallback parse of such strings).  Out-of-range
month/day values are treated as an invalid date.  The result is the
(year, month, day) triple. -/
def parseDateParts (s : String) : Option (Nat × Nat × Nat) :=
  match (jsSplit s '-').map natOfDigits with
  | [some a, some b, some c] =>
    if a ≥ 1000 then
      if 1 ≤ b ∧ b ≤ 12 ∧ 1 ≤ c ∧ c ≤ 31 then some (a, b, c) else none
    else
      if 1 ≤ a ∧ a ≤ 12 ∧ 1 ≤ b ∧ b ≤ 31 then some (c, a, b) else none
  | _ => none

/-- Encode a calendar date so that the numeric order of the encoding is
the lexicographic (year, month, day) order, matching the order of the
millisecond values new Date produces for valid dates. -/
def dateVal (ymd : Nat × Nat × Nat) : Nat :=
  ymd.1 * 512 + ymd.2.1 * 32 + ymd.2.2

/-- Numeric value of a parsed date string; none is an Invalid Date. -/
def parseDateNat (s : String) : Option Nat := (parseDateParts s).map dateVal

/-- The date-part extraction both comparators apply to the CREATED
cell: take the text before the first space (an empty or missing cell
yields the empty string). -/
def createdDateStr (c : Option String) : String :=
  if falsyO c then "" else (jsSplit (optS c) ' ').headD ""

/-- The sort key getLatestScan effectively compares: the CREATED date
part with slashes turned into dashes, parsed as a calendar date.
none means the row has no parsable capture timestamp. -/
def rowKey (r : ScanRow) : Option Nat :=
  let ds := createdDateStr r.CREATED
  if ds = "" then none else parseDateNat (jsReplaceAllCh ds '/' '-')

/-- The guarded comparator of ScanIDService.js (the draft with the
try/catch and the missing-date check, lines 115-134): empty or missing
date strings compare as 0, and an Invalid Date makes the subtraction
NaN, which Array.prototype.sort treats exactly like a 0 comparator
result, modelled here by returning 0.  The enclosing catch also maps
any error to 0, so the function is total. -/
def compareCreatedSafe (a b : ScanRow) : Int :=
  let dateAStr := createdDateStr a.CREATED
  let dateBStr := createdDateStr b.CREATED
  if dateAStr = "" ∨ dateBStr = "" then 0
  else
    match parseDateNat (jsReplaceAllCh dateBStr '/' '-'),
          parseDateNat (jsReplaceAllCh dateAStr '/' '-') with
    | some vb, some va => (vb : Int) - (va : Int)
    | _, _ => 0

/-- The unguarded comparator of the other two getLatestScan drafts
(lines 44-48 and 183-187): reading CREATED on a row that lacks the
column throws a TypeError (modelled as .error); on any string value it
returns a number, with NaN from an unparsable date again behaving as 0
in the sort. -/
def compareCreatedNaive (a b : ScanRow) : Except String Int :=
  match a.CREATED, b.CREATED with
  | some sa, some sb =>
    let dateAStr := (jsSplit sa ' ').headD ""
    let dateBStr := (jsSplit sb ' ').headD ""
    .ok (match parseDateNat (jsReplaceAllCh dateBStr '/' '-'),
               parseDateNat (jsReplaceAllCh dateAStr '/' '-') with
      | some vb, some va => (vb : Int) - (va : Int)
      | _, _ => 0)
  | _, _ => .error "TypeError: Cannot read properties of undefined"

/-- Insert into an already sorted list, after every element the
comparator does not order strictly after the inserted one.  Because the
inserted element is the earlier one in the original order, placing it
before the first element y with cmp x y ≤ 0 is exactly stable
ascending-by-comparator order. -/
def jsInsert (cmp : α → α → Int) (x : α) : List α → List α
  | [] => [x]
  | y :: ys => if cmp x y ≤ 0 then x :: y :: ys else y :: jsInsert cmp x ys

/-- Model of Array.prototype.sort with a comparator.  The ECMAScript
sort is stable (ES2019), and for a consistent comparator every stable
sort produces the same list, so insertion sort is a faithful model. -/
def jsStableSort (cmp : α → α → Int) : List α → List α
  | [] => []
  | x :: xs => jsInsert cmp x (jsStableSort cmp xs)

/-- getLatestScan from the parsed records onward: reject an empty
record list, sort by the CREATED comparator descending, take the first
record, map the columns.  (The inner none case cannot occur: sorting a
non-empty list yields a non-empty list.) -/
def getLatestScan (records : List ScanRow) : Except String ScanRecord :=
  if records.isEmpty then .error "No records found in CSV file"
  else
    match (jsStableSort compareCreatedSafe records).head? with
    | some r => .ok (scanRowToRecord r)
    | none => .error "No records found in CSV file"

/-- The sort key with 0 for rows without one; only used to state
properties of lists all of whose rows have a key. -/
def keyD (r : ScanRow) : Nat := (rowKey r).getD 0

/-- Maximum sort key of a row list. -/
def maxKeyL (l : List ScanRow) : Nat :=
  l.foldr (fun r acc => max (keyD r) acc) 0

/-! ## Properties of the Scan-ID sort -/

theorem compareCreatedSafe_eq_key (a b : ScanRow) :
    compareCreatedSafe a b =
      match rowKey a, rowKey b with
      | some va, some vb => (vb : Int) - (va : Int)
      | _, _ => 0 := by
  unfold compareCreatedSafe rowKey
  by_cases ha : createdDateStr a.CREATED = ""
  · simp [ha]
  · by_cases hb : createdDateStr b.CREATED = ""
    · simp [ha, hb]
    · simp only [ha, hb, if_false, ite_false, or_self, or_false, false_or, if_neg]
      cases hpa : parseDateNat (jsReplaceAllCh (createdDateStr a.CREATED) '/' '-') <;>
        cases hpb : parseDateNat (jsReplaceAllCh (createdDateStr b.CREATED) '/' '-') <;>
        simp [hpa, hpb]

theorem jsInsert_length (cmp : α → α → Int) (x : α) (l : List α) :
    (jsInsert cmp x l).length = l.length + 1 := by
  induction l with
  | nil => rfl
  | cons y ys ih => by_cases h : cmp x y ≤ 0 <;> simp [jsInsert, h, ih]

theorem jsStableSort_length (cmp : α → α → Int) (l : List α) :
    (jsStableSort cmp l).length = l.length := by
  induction l with
  | nil => rfl
  | cons x xs ih => simp [jsStableSort, jsInsert_length, ih]

theorem maxKeyL_cons (x : ScanRow) (xs : List ScanRow) :
    maxKeyL (x :: xs) = max (keyD x) (maxKeyL xs) := rfl

theorem le_maxKeyL (l : List ScanRow) (r : ScanRow) (hr : r ∈ l) :
    keyD r ≤ maxKeyL l := by
  induction l with
  | nil => cases hr
  | cons x xs ih =>
    rcases List.mem_cons.mp hr with h | h
    · subst h; rw [maxKeyL_cons]; exact Nat.le_max_left _ _
    · rw [maxKeyL_cons]; exact le_trans (ih h) (Nat.le_max_right _ _)

theorem maxKeyL_attained (l : List ScanRow) (h : l ≠ []) :
    ∃ r ∈ l, keyD r = maxKeyL l := by
  induction l with
  | nil => cases h rfl
  | cons x xs ih =>
    by_cases hxs : xs = []
    · subst hxs
      exact ⟨x, List.mem_cons_self x [], by rw [maxKeyL_cons]; simp [maxKeyL]⟩
    · obtain ⟨r, hrm, hrk⟩ := ih hxs
      by_cases hc : maxKeyL xs ≤ keyD x
      · exact ⟨x, List.mem_cons_self x xs, by rw [maxKeyL_cons, Nat.max_eq_left hc]⟩
      · refine ⟨r, List.mem_cons_of_mem _ hrm, ?_⟩
        rw [maxKeyL_cons, Nat.max_eq_right (le_of_not_le hc)]
        exact hrk

theorem find_max_isSome (l : List ScanRow) (h : l ≠ []) :
    ∃ r0, l.find? (fun r => keyD r == maxKeyL l) = some r0 := by
  obtain ⟨r, hrm, hrk⟩ := maxKeyL_attained l h
  cases e : l.find? (fun r => keyD r == maxKeyL l) with
  | some r0 => exact ⟨r0, rfl⟩
  | none =>
    exfalso
    have hnone := List.find?_eq_none.mp e r hrm
    simp [hrk] at hnone

theorem sortedHead (l : List ScanRow) (hall : ∀ r ∈ l, (rowKey r).isSome) (hne : l ≠ []) :
    (jsStableSort compareCreatedSafe l).head? =
      l.find? (fun r => keyD r == maxKeyL l) := by
  induction l with
  | nil => cases hne rfl
  | cons r l ih =>
    by_cases hl : l = []
    · subst hl
      simp [jsStableSort, jsInsert, maxKeyL, List.find?]
    · have hall2 : ∀ s ∈ l, (rowKey s).isSome := fun s hs => hall s (List.mem_cons_of_mem _ hs)
      have ih2 := ih hall2 hl
      obtain ⟨h0, hf⟩ := find_max_isSome l hl
      have hmem : h0 ∈ l := List.mem_of_find?_eq_some hf
      have hp := List.find?_some hf
      have hkey : keyD h0 = maxKeyL l := by simpa using hp
      have hhead : (jsStableSort compareCreatedSafe l).head? = some h0 := by rw [ih2, hf]
      obtain ⟨vr, hvr⟩ := Option.isSome_iff_exists.mp (hall r (List.mem_cons_self r l))
      obtain ⟨vh, hvh⟩ := Option.isSome_iff_exists.mp (hall2 h0 hmem)
      have hkr : keyD r = vr := by simp [keyD, hvr]
      have hkh : keyD h0 = vh := by simp [keyD, hvh]
      have hcmp : compareCreatedSafe r h0 = (vh : Int) - (vr : Int) := by
        rw [compareCreatedSafe_eq_key, hvr, hvh]
      cases e : jsStableSort compareCreatedSafe l with
      | nil => rw [e] at hhead; simp at hhead
      | cons y t =>
        rw [e] at hhead
        have hy : y = h0 := by simpa using hhead
        subst hy
        have hstep : jsStableSort compareCreatedSafe (r :: l) =
            jsInsert compareCreatedSafe r (y :: t) := by
          rw [jsStableSort, e]
        rw [hstep]
        by_cases hc : vh ≤ vr
        · have hle : compareCreatedSafe r y ≤ 0 := by rw [hcmp]; omega
          rw [jsInsert, if_pos hle]
          have hmax : maxKeyL (r :: l) = keyD r := by
            rw [maxKeyL_cons, ← hkey, hkr, hkh, Nat.max_eq_left hc]
          simp [List.find?, hmax]
        · have hgt : ¬ compareCreatedSafe r y ≤ 0 := by rw [hcmp]; omega
          rw [jsInsert, if_neg hgt]
          have hmax : maxKeyL (r :: l) = maxKeyL l := by
            rw [maxKeyL_cons, ← hkey, hkr, hkh, Nat.max_eq_right (le_of_not_le hc)]
          have hne2 : (keyD r == maxKeyL (r :: l)) = false := by
            rw [hmax, ← hkey, hkr, hkh]
            simp
            omega
          rw [List.find?]
          simp only [hne2]
          rw [hmax]
          simp [hf]

def scanRowA : ScanRow := { FIRSTNAME := some "JOHN", CREATED := some "06/01/2024 10:00" }

def scanRowB : ScanRow := { FIRSTNAME := some "JANE", CREATED := some "06/02/2024 09:00" }

def scanRowBad : ScanRow := { CREATED := some "not a date" }

def scanRowNoCreated : ScanRow := {}

/-- C3: for every non-empty list of rows all of whose CREATED fields
parse as calendar dates, getLatestScan returns (the field mapping of)
the first row in original order whose parsed capture timestamp attains
the maximum, so its timestamp is greater than or equal to every other
row's parsed timestamp and ties resolve to the earliest-appearing row
(the sort is stable). -/
theorem claim3_getLatestScan_max (l : List ScanRow) (hne : l ≠ [])
    (hall : ∀ r ∈ l, (rowKey r).isSome) :
    ∃ r0, l.find? (fun r => keyD r == maxKeyL l) = some r0 ∧
      getLatestScan l = .ok (scanRowToRecord r0) ∧
      ∀ s ∈ l, keyD s ≤ keyD r0 := by
  obtain ⟨r0, hf⟩ := find_max_isSome l hne
  have hisEmpty : l.isEmpty = false := by
    cases l with
    | nil => cases hne rfl
    | cons a as => rfl
  refine ⟨r0, hf, ?_, ?_⟩
  · unfold getLatestScan
    rw [hisEmpty]
    simp only [Bool.false_eq_true, if_false]
    rw [sortedHead l hall hne, hf]
  · intro s hs
    have hp := List.find?_some hf
    have hkey : keyD r0 = maxKeyL l := by simpa using hp
    rw [hkey]
    exact le_maxKeyL l s hs

theorem claim3_witness :
    ([scanRowA, scanRowB] ≠ ([] : List ScanRow)) ∧
    (∀ r ∈ [scanRowA, scanRowB], (rowKey r).isSome) ∧
    ∃ r0, [scanRowA, scanRowB].find? (fun r => keyD r == maxKeyL [scanRowA, scanRowB]) = some r0 ∧
      getLatestScan [scanRowA, scanRowB] = .ok (scanRowToRecord r0) ∧
      ∀ s ∈ [scanRowA, scanRowB], keyD s ≤ keyD r0 :=
  ⟨by decide, by decide, claim3_getLatestScan_max _ (by decide) (by decide)⟩

/-- C8: the guarded comparator totalises every malformed row: whenever
either row has no parsable capture timestamp (missing CREATED, empty
date part, or an unparsable date string) the comparator returns 0,
comparing the row as equal to its neighbour, and getLatestScan on any
non-empty row list still returns a ScanRecord rather than an error. -/
theorem claim8_sort_never_throws :
    (∀ a b : ScanRow, rowKey a = none ∨ rowKey b = none → compareCreatedSafe a b = 0) ∧
    (∀ l : List ScanRow, l ≠ [] → ∃ rec, getLatestScan l = .ok rec) := by
  constructor
  · intro a b h
    rw [compareCreatedSafe_eq_key]
    rcases h with h | h
    · rw [h]
    · rw [h]; cases rowKey a <;> rfl
  · intro l hne
    have hisEmpty : l.isEmpty = false := by
      cases l with
      | nil => cases hne rfl
      | cons a as => rfl
    cases e : (jsStableSort compareCreatedSafe l).head? with
    | none =>
      exfalso
      have h0 : jsStableSort compareCreatedSafe l = [] := by
        cases e2 : jsStableSort compareCreatedSafe l with
        | nil => rfl
        | cons a as => rw [e2] at e; simp at e
      have hlen := jsStableSort_length compareCreatedSafe l
      rw [h0] at hlen
      have hz : l = [] := List.length_eq_zero.mp hlen.symm
      exact hne hz
    | some r =>
      refine ⟨scanRowToRecord r, ?_⟩
      unfold getLatestScan
      rw [hisEmpty]
      simp only [Bool.false_eq_true, if_false]
      rw [e]

theorem claim8_witness :
    (rowKey scanRowBad = none ∨ rowKey scanRowA = none) ∧
    compareCreatedSafe scanRowBad scanRowA = 0 ∧
    ([scanRowBad, scanRowNoCreated, scanRowA] ≠ ([] : List ScanRow)) ∧
    ∃ rec, getLatestScan [scanRowBad, scanRowNoCreated, scanRowA] = .ok rec :=
  ⟨Or.inl (by decide), claim8_sort_never_throws.1 scanRowBad scanRowA (Or.inl (by decide)),
   by decide, claim8_sort_never_throws.2 _ (by decide)⟩

/-! ## Query filters shared by the REST matchers -/

structure Filter where
  fieldName : String
  op : String
  value : String
deriving Repr, DecidableEq

def mkF (fieldName op value : String) : Filter := ⟨fieldName, op, value⟩

/-! ## WixService.js findMember (part_003) -/

def invalidParamMsg : String :=
  "At least one search parameter (firstName, lastName, or dateOfBirth) is required"

def membersFilters003 (firstName lastName dateOfBirth : String) : List Filter :=
  let formattedFirstName := toTitleCase firstName
  let formattedLastName := toTitleCase lastName
  let firstNameVars := firstNameVariations formattedFirstName
  let formattedDOB := formattedDOB003 dateOfBirth
  ((firstNameVars.map fun v => mkF "profile.firstName" "contains" v)
    ++ (if formattedLastName ≠ "" then
          [mkF "profile.lastName" "contains" formattedLastName] else [])
    ++ (if formattedDOB ≠ "" then
          [mkF "extendedFields.dob" "eq" formattedDOB,
           mkF "extendedFields.birthdate" "eq" formattedDOB,
           mkF "extendedFields.dateOfBirth" "eq" formattedDOB,
           mkF "extendedFields.dob" "eq" dateOfBirth,
           mkF "extendedFields.birthdate" "eq" dateOfBirth,
           mkF "extendedFields.dateOfBirth" "eq" dateOfBirth] else [])
    ++ (if formattedFirstName ≠ "" ∧ formattedLastName ≠ "" then
          [mkF "profile.name" "contains"
            (jsTrim (formattedFirstName ++ " " ++ formattedLastName))] else []))

def contactsFilters003 (firstName lastName dateOfBirth : String) : List Filter :=
  let formattedFirstName := toTitleCase firstName
  let formattedLastName := toTitleCase lastName
  let firstNameVars := firstNameVariations formattedFirstName
  let formattedDOB := formattedDOB003 dateOfBirth
  ((firstNameVars.map fun v => mkF "info.name.first" "contains" v)
    ++ (if formattedLastName ≠ "" then
          [mkF "info.name.last" "contains" formattedLastName] else [])
    ++ (if formattedDOB ≠ "" then
          [mkF "extendedFields.dob" "eq" formattedDOB,
           mkF "extendedFields.birthdate" "eq" formattedDOB,
           mkF "extendedFields.dateOfBirth" "eq" formattedDOB,
           mkF "extendedFields.dob" "eq" dateOfBirth,
           mkF "extendedFields.birthdate" "eq" dateOfBirth,
           mkF "extendedFields.dateOfBirth" "eq" dateOfBirth] else [])
    ++ (if formattedFirstName ≠ "" ∧ formattedLastName ≠ "" then
          [mkF "info.name.full" "contains"
            (jsTrim (formattedFirstName ++ " " ++ formattedLastName))] else []))

def fullName003 (firstName lastName : String) : String :=
  jsTrim (toTitleCase firstName ++ " " ++ toTitleCase lastName)

structure MemberProfile where
  nickname : Option String := none
  firstName : Option String := none
  lastName : Option String := none
  email : Option String := none
  phone : Option String := none
  photoUrl : Option String := none
deriving Repr, DecidableEq

structure MemberContact where
  firstName : Option String := none
  lastName : Option String := none
  birthdate : Option String := none
  emails : List String := []
  phones : List String := []
deriving Repr, DecidableEq

structure ExtFields where
  dob : Option String := none
  birthdate : Option String := none
  dateOfBirth : Option String := none
deriving Repr, DecidableEq

structure Member003 where
  _id : Option String := none
  id : Option String := none
  memberId : Option String := none
  loginEmail : Option String := none
  profile : Option MemberProfile := none
  contact : Option MemberContact := none
  extendedFields : Option ExtFields := none
deriving Repr, DecidableEq

structure ContactName where
  first : Option String := none
  last : Option String := none
  full : Option String := none
deriving Repr, DecidableEq

structure EmailEntry where
  email : Option String := none
deriving Repr, DecidableEq

structure PhoneEntry where
  phone : Option String := none
deriving Repr, DecidableEq

structure ContactInfo where
  name : Option ContactName := none
  memberId : Option String := none
  id : Option String := none
  birthdate : Option String := none
  emails : List EmailEntry := []
  phones : List PhoneEntry := []
deriving Repr, DecidableEq

structure MemberInfo where
  id : Option String := none
deriving Repr, DecidableEq

structure CustomFields where
  birthdate : Option String := none
  dob : Option String := none
deriving Repr, DecidableEq

structure Contact003 where
  id : Option String := none
  memberInfo : Option MemberInfo := none
  info : Option ContactInfo := none
  customFields : Option CustomFields := none
  primaryEmail : Option EmailEntry := none
  primaryPhone : Option PhoneEntry := none
  pictureUrl : Option String := none
deriving Repr, DecidableEq

structure Profile003 where
  id : Option String := none
  firstName : String := ""
  lastName : String := ""
  email : String := ""
  phone : String := ""
  picture : String := ""
  dateOfBirth : String := ""
  source : String := ""
  nickname : String := ""
deriving Repr, DecidableEq

/-- findMember lines 227-235: give every member an _id, falling back
to id and then memberId when _id is falsy. -/
def ensureId003 (m : Member003) : Member003 :=
  if falsyO m._id ∧ ¬ falsyO m.id then { m with _id := m.id }
  else if falsyO m._id ∧ ¬ falsyO m.memberId then { m with _id := m.memberId }
  else m

/-- findMember lines 375-408: the Members-API candidate mapping. -/
def mapMember003 (m : Member003) : Profile003 :=
  let nick := optS (m.profile.bind MemberProfile.nickname)
  let parts := jsSplit nick ' '
  let fn0 := if nick ≠ "" then (if parts.length ≥ 2 then parts.headD "" else nick) else ""
  let ln0 := if nick ≠ "" ∧ parts.length ≥ 2 then joinWith " " (parts.drop 1) else ""
  { id := jsOrO m._id (jsOrO m.id m.memberId)
    firstName := jsOr fn0 (jsOr (optS (m.profile.bind MemberProfile.firstName))
      (optS (m.contact.bind MemberContact.firstName)))
    lastName := jsOr ln0 (jsOr (optS (m.profile.bind MemberProfile.lastName))
      (optS (m.contact.bind MemberContact.lastName)))
    email := jsOr (optS m.loginEmail) (jsOr (optS (m.contact.bind fun c => c.emails.head?))
      (optS (m.profile.bind MemberProfile.email)))
    phone := jsOr (optS (m.contact.bind fun c => c.phones.head?))
      (optS (m.profile.bind MemberProfile.phone))
    picture := optS (m.profile.bind MemberProfile.photoUrl)
    dateOfBirth := jsOr (optS (m.contact.bind MemberContact.birthdate))
      (jsOr (optS (m.extendedFields.bind ExtFields.dob))
        (optS (m.extendedFields.bind ExtFields.birthdate)))
    source := "members"
    nickname := nick }

/-- findMember lines 415-436: the Contacts-API candidate mapping. -/
def mapContact003 (c : Contact003) : Profile003 :=
  { id := jsOrO (c.memberInfo.bind MemberInfo.id)
      (jsOrO (c.info.bind ContactInfo.memberId)
        (jsOrO (c.info.bind ContactInfo.id) c.id))
    firstName := optS ((c.info.bind ContactInfo.name).bind ContactName.first)
    lastName := optS ((c.info.bind ContactInfo.name).bind ContactName.last)
    email := jsOr (optS (c.primaryEmail.bind EmailEntry.email))
      (optS (((c.info.bind fun i => i.emails.head?).bind EmailEntry.email)))
    phone := jsOr (optS (c.primaryPhone.bind PhoneEntry.phone))
      (optS (((c.info.bind fun i => i.phones.head?).bind PhoneEntry.phone)))
    picture := optS c.pictureUrl
    dateOfBirth := jsOr (optS (c.info.bind ContactInfo.birthdate))
      (jsOr (optS (c.customFields.bind CustomFields.birthdate))
        (optS (c.customFields.bind CustomFields.dob)))
    source := "contacts"
    nickname := "" }

structure FindResult003 where
  success : Bool
  error : Option String := none
  members : List Profile003 := []
deriving Repr, DecidableEq

def noMatch003 : FindResult003 :=
  { success := false, error := some "No members found matching the search criteria", members := [] }

/-- The three remote calls findMember can make, each a function of the
request the code actually builds. -/
structure Net003 where
  queryMembers : List Filter → Except String (List Member003)
  queryContacts : List Filter → Except String (List Contact003)
  searchContacts : String → Except String (List Contact003)

/-- The contacts fallback of findMember (lines 246-368 and the result
processing): the Contacts API query, and on a thrown contacts query the
last-resort free-text search; any source left empty falls through to
the no-match error result (lines 439-444). -/
def findMember003Contacts (firstName lastName dateOfBirth : String) (net : Net003) :
    FindResult003 × List String :=
  match net.queryContacts (contactsFilters003 firstName lastName dateOfBirth) with
  | .ok cs =>
    if cs.isEmpty then (noMatch003, ["members", "contacts"])
    else ({ success := true, error := none, members := cs.map mapContact003 },
      ["members", "contacts"])
  | .error _ =>
    match net.searchContacts (fullName003 firstName lastName) with
    | .ok ss =>
      if ss.isEmpty then (noMatch003, ["members", "contacts", "search"])
      else ({ success := true, error := none, members := ss.map mapContact003 },
        ["members", "contacts", "search"])
    | .error _ => (noMatch003, ["members", "contacts", "search"])

/-- WixService.js findMember: API-key guard, criteria guard, then the
Members API with the Contacts API (and free-text search) as fallback.
The second component lists the remote calls issued, in order. -/
def findMember003 (apiKeySet : Bool) (firstName lastName dateOfBirth : String) (net : Net003) :
    FindResult003 × List String :=
  if !apiKeySet then
    ({ success := false,
       error := some "Wix API key not set. Please add it to wix.config.json.",
       members := [] }, [])
  else if isBlank firstName && isBlank lastName && isBlank dateOfBirth then
    ({ success := false, error := some invalidParamMsg, members := [] }, [])
  else
    match net.queryMembers (membersFilters003 firstName lastName dateOfBirth) with
    | .ok ms =>
      if ms.isEmpty then findMember003Contacts firstName lastName dateOfBirth net
      else
        ({ success := true, error := none,
           members := (ms.map ensureId003).map mapMember003 }, ["members"])
    | .error _ => findMember003Contacts firstName lastName dateOfBirth net

/-! ## WixDirectApi.js searchMemberByNameOrDOB (part_004) -/

structure WRec where
  _id : Option String := none
  id : Option String := none
  payload : String := ""
deriving Repr, DecidableEq

/-- searchMemberByNameOrDOB lines 368-374. -/
def ensureId004 (r : WRec) : WRec :=
  if falsyO r._id ∧ ¬ falsyO r.id then { r with _id := r.id } else r

def nameParts004 (name : String) : List String :=
  (jsSplit name ' ').filter fun part => (jsTrim part).length > 0

def dobFilters004 (dob : String) : List Filter :=
  if dob ≠ "" then
    [mkF "extendedFields.dob" "eq" (formatDob004 dob),
     mkF "extendedFields.birthdate" "eq" (formatDob004 dob),
     mkF "extendedFields.dateOfBirth" "eq" (formatDob004 dob)]
  else []

def memberFilters004 (name dob : String) : List Filter :=
  (if name ≠ "" then
    ((nameParts004 name).map fun part =>
      [mkF "profile.firstName" "contains" part,
       mkF "profile.lastName" "contains" part,
       mkF "profile.name" "contains" part,
       mkF "extendedFields.fullName" "contains" part]).flatten
    ++ [mkF "profile.name" "contains" name]
  else []) ++ dobFilters004 dob

def contactFilters004 (name dob : String) : List Filter :=
  (if name ≠ "" then
    ((nameParts004 name).map fun part =>
      [mkF "info.name.first" "contains" part,
       mkF "info.name.last" "contains" part,
       mkF "info.name.full" "contains" part,
       mkF "customFields.fullName" "contains" part]).flatten
    ++ [mkF "info.name.full" "contains" name]
  else []) ++ dobFilters004 dob

structure SearchResult004 where
  success : Bool
  source : Option String := none
  results : List WRec := []
  error : Option String := none
deriving Repr, DecidableEq

structure Net004 where
  queryMembers : List Filter → Except String (List WRec)
  queryContacts : List Filter → Except String (List WRec)

/-- WixDirectApi.js searchMemberByNameOrDOB: Members API first, with a
failed call downgraded to an empty response; when it yields nothing,
the Contacts API, again with failure downgraded to empty; the result is
tagged with the source that produced it and is success: true on every
path after initialisation, including total exhaustion. -/
def searchMemberByNameOrDOB (initFlag : Bool) (name dob : String) (net : Net004) :
    SearchResult004 × List String :=
  if !initFlag then
    ({ success := false, error := some "Wix Direct API not properly initialized" }, [])
  else
    let filters := memberFilters004 name dob
    if filters.isEmpty then
      ({ success := true, source := some "none", results := [] }, [])
    else
      let ms := match net.queryMembers filters with
        | .ok ms => ms
        | .error _ => []
      if ms.isEmpty then
        let cs := match net.queryContacts (contactFilters004 name dob) with
          | .ok cs => cs
          | .error _ => []
        ({ success := true, source := some "contacts", results := cs }, ["members", "contacts"])
      else
        ({ success := true, source := some "members", results := ms.map ensureId004 },
          ["members"])

theorem ne_nil_isEmpty_false {α : Type} (l : List α) (h : l ≠ []) : l.isEmpty = false := by
  cases l with
  | nil => cases h rfl
  | cons a as => rfl

/-- C1: both matchers stop at the first source that returns at least
one candidate.  For WixService.js findMember: when the Members API
query succeeds with a non-empty list, the Contacts API is never
consulted (the issued-call list is exactly the members call), the
candidates are the mapped members, and each carries source tag
members; when the Members API yields zero candidates or throws and the
Contacts API returns a non-empty list, the result is built from it
alone with tag contacts.  The same two statements hold for
WixDirectApi.js searchMemberByNameOrDOB, whose second-source result is
tagged contacts even when empty. -/
theorem claim1_first_source_wins :
    (∀ (fn ln dob : String) (net : Net003) (ms : List Member003),
      (isBlank fn && isBlank ln && isBlank dob) = false →
      net.queryMembers (membersFilters003 fn ln dob) = .ok ms → ms ≠ [] →
      findMember003 true fn ln dob net =
        ({ success := true, error := none,
           members := (ms.map ensureId003).map mapMember003 }, ["members"]) ∧
      (∀ p ∈ (ms.map ensureId003).map mapMember003, p.source = "members")) ∧
    (∀ (fn ln dob : String) (net : Net003) (cs : List Contact003),
      (isBlank fn && isBlank ln && isBlank dob) = false →
      (net.queryMembers (membersFilters003 fn ln dob) = .ok [] ∨
        ∃ e, net.queryMembers (membersFilters003 fn ln dob) = .error e) →
      net.queryContacts (contactsFilters003 fn ln dob) = .ok cs → cs ≠ [] →
      findMember003 true fn ln dob net =
        ({ success := true, error := none, members := cs.map mapContact003 },
          ["members", "contacts"]) ∧
      (∀ p ∈ cs.map mapContact003, p.source = "contacts")) ∧
    (∀ (name dob : String) (net : Net004) (ms : List WRec),
      memberFilters004 name dob ≠ [] →
      net.queryMembers (memberFilters004 name dob) = .ok ms → ms ≠ [] →
      searchMemberByNameOrDOB true name dob net =
        ({ success := true, source := some "members", results := ms.map ensureId004 },
          ["members"])) ∧
    (∀ (name dob : String) (net : Net004) (cs : List WRec),
      memberFilters004 name dob ≠ [] →
      (net.queryMembers (memberFilters004 name dob) = .ok [] ∨
        ∃ e, net.queryMembers (memberFilters004 name dob) = .error e) →
      net.queryContacts (contactFilters004 name dob) = .ok cs →
      searchMemberByNameOrDOB true name dob net =
        ({ success := true, source := some "contacts", results := cs },
          ["members", "contacts"])) := by
  refine ⟨?_, ?_, ?_, ?_⟩
  · intro fn ln dob net ms hb hq hne
    have hne2 : ms.isEmpty = false := ne_nil_isEmpty_false ms hne
    refine ⟨by simp [findMember003, hb, hq, hne2], ?_⟩
    intro p hp
    simp only [List.mem_map] at hp
    obtain ⟨m, hm, rfl⟩ := hp
    rfl
  · intro fn ln dob net cs hb hm hqc hne
    have hne2 : cs.isEmpty = false := ne_nil_isEmpty_false cs hne
    have hcont : findMember003Contacts fn ln dob net =
        ({ success := true, error := none, members := cs.map mapContact003 },
          ["members", "contacts"]) := by
      simp [findMember003Contacts, hqc, hne2]
    refine ⟨?_, ?_⟩
    · rcases hm with hm | ⟨e, hm⟩
      · simp [findMember003, hb, hm, hcont]
      · simp [findMember003, hb, hm, hcont]
    · intro p hp
      simp only [List.mem_map] at hp
      obtain ⟨c, hc, rfl⟩ := hp
      rfl
  · intro name dob net ms hf hq hne
    have hne2 : ms.isEmpty = false := ne_nil_isEmpty_false ms hne
    have hf2 : (memberFilters004 name dob).isEmpty = false := ne_nil_isEmpty_false _ hf
    simp [searchMemberByNameOrDOB, hf2, hq, hne2]
  · intro name dob net cs hf hm hqc
    have hf2 : (memberFilters004 name dob).isEmpty = false := ne_nil_isEmpty_false _ hf
    rcases hm with hm | ⟨e, hm⟩
    · simp [searchMemberByNameOrDOB, hf2, hm, hqc]
    · simp [searchMemberByNameOrDOB, hf2, hm, hqc]

def contact0 : Contact003 :=
  { id := some "c-1",
    info := some { name := some { first := some "Jane", last := some "Doe" } } }

def net003B : Net003 :=
  { queryMembers := fun _ => .ok []
    queryContacts := fun _ => .ok [contact0]
    searchContacts := fun _ => .ok [] }

/-- Witness for C1: a concrete run in which the member directory
returns zero candidates and the contact directory returns one; the
result carries tag contacts and exactly that one candidate. -/
theorem claim1_witness :
    ((isBlank "JANE" && isBlank "DOE" && isBlank "") = false) ∧
    net003B.queryContacts (contactsFilters003 "JANE" "DOE" "") = .ok [contact0] ∧
    ([contact0] : List Contact003) ≠ [] ∧
    findMember003 true "JANE" "DOE" "" net003B =
      ({ success := true, error := none, members := [contact0].map mapContact003 },
        ["members", "contacts"]) ∧
    ([contact0].map mapContact003).length = 1 :=
  ⟨by decide, rfl, by decide,
    (claim1_first_source_wins.2.1 "JANE" "DOE" "" net003B [contact0]
      (by decide) (Or.inl rfl) rfl (by decide)).1,
    by decide⟩

def net003Empty : Net003 :=
  { queryMembers := fun _ => .ok []
    queryContacts := fun _ => .ok []
    searchContacts := fun _ => .ok [] }

/-- C2 counterexample: with every source returning zero candidates,
WixService.js findMember returns success false with the error text
No members found matching the search criteria — not the success true
with an empty candidate list that the claim asserts. -/
theorem claim2_counterexample :
    (findMember003 true "John" "Smith" "03-22-1985" net003Empty).1.success = false ∧
    (findMember003 true "John" "Smith" "03-22-1985" net003Empty).1.error =
      some "No members found matching the search criteria" := by
  exact ⟨rfl, rfl⟩

def net004Fail : Net004 :=
  { queryMembers := fun _ => .error "ECONNREFUSED"
    queryContacts := fun _ => .error "ECONNREFUSED" }

/-- C2 amended: when every source yields zero candidates or throws,
WixService.js findMember reports the no-match outcome as an error
result (success false, No members found matching the search criteria);
WixDirectApi.js searchMemberByNameOrDOB instead returns success true
with an empty list on the same exhaustion, including when every remote
call fails, so a total transport failure is not distinguished there
from zero results. -/
theorem claim2_amended_exhaustion :
    (∀ (fn ln dob : String) (net : Net003),
      (isBlank fn && isBlank ln && isBlank dob) = false →
      (net.queryMembers (membersFilters003 fn ln dob) = .ok [] ∨
        ∃ e, net.queryMembers (membersFilters003 fn ln dob) = .error e) →
      (net.queryContacts (contactsFilters003 fn ln dob) = .ok [] ∨
        (∃ e, net.queryContacts (contactsFilters003 fn ln dob) = .error e) ∧
          (net.searchContacts (fullName003 fn ln) = .ok [] ∨
            ∃ e2, net.searchContacts (fullName003 fn ln) = .error e2)) →
      (findMember003 true fn ln dob net).1 = noMatch003) ∧
    (∀ (name dob : String) (net : Net004),
      memberFilters004 name dob ≠ [] →
      (∃ e1, net.queryMembers (memberFilters004 name dob) = .error e1) →
      (∃ e2, net.queryContacts (contactFilters004 name dob) = .error e2) →
      searchMemberByNameOrDOB true name dob net =
        ({ success := true, source := some "contacts", results := [] },
          ["members", "contacts"])) := by
  constructor
  · intro fn ln dob net hb hm hc
    have hcont : (findMember003Contacts fn ln dob net).1 = noMatch003 := by
      rcases hc with hc | ⟨⟨e, he⟩, hs⟩
      · simp [findMember003Contacts, hc]
      · rcases hs with hs | ⟨e2, hs⟩
        · simp [findMember003Contacts, he, hs]
        · simp [findMember003Contacts, he, hs]
    rcases hm with hm | ⟨e, hm⟩
    · simp [findMember003, hb, hm, hcont]
    · simp [findMember003, hb, hm, hcont]
  · intro name dob net hf ⟨e1, hm⟩ ⟨e2, hc⟩
    have hf2 : (memberFilters004 name dob).isEmpty = false := ne_nil_isEmpty_false _ hf
    simp [searchMemberByNameOrDOB, hf2, hm, hc]

/-- Witness for the amended C2 at concrete inputs and oracles. -/
theorem claim2_amended_witness :
    ((isBlank "John" && isBlank "Smith" && isBlank "03-22-1985") = false) ∧
    (findMember003 true "John" "Smith" "03-22-1985" net003Empty).1 = noMatch003 ∧
    (memberFilters004 "John Smith" "" ≠ []) ∧
    searchMemberByNameOrDOB true "John Smith" "" net004Fail =
      ({ success := true, source := some "contacts", results := [] },
        ["members", "contacts"]) :=
  ⟨by decide,
    claim2_amended_exhaustion.1 "John" "Smith" "03-22-1985" net003Empty
      (by decide) (Or.inl rfl) (Or.inl rfl),
    by decide,
    claim2_amended_exhaustion.2 "John Smith" "" net004Fail (by decide)
      ⟨"ECONNREFUSED", rfl⟩ ⟨"ECONNREFUSED", rfl⟩⟩

/-- C6: buildQuery on JANE MARIE / DOE / 01-15-1990 produces the
variants Jane Marie, Jane and Marie and the normalised date of birth
1990-01-15; in general, for every non-empty first name the variant
list holds the full title-cased name and every multi-character
token of it. -/
theorem claim6_variants :
    ("Jane Marie" ∈ variationsOf "JANE MARIE") ∧
    ("Jane" ∈ variationsOf "JANE MARIE") ∧
    ("Marie" ∈ variationsOf "JANE MARIE") ∧
    formattedDOB003 "01-15-1990" = "1990-01-15" ∧
    (∀ fn : String, fn ≠ "" →
      toTitleCase fn ∈ variationsOf fn ∧
      ∀ p ∈ jsSplit (toTitleCase fn) ' ', p.length > 1 → p ∈ variationsOf fn) := by
  refine ⟨by decide, by decide, by decide, by decide, ?_⟩
  intro fn _
  constructor
  · unfold variationsOf firstNameVariations
    simp
  · intro p hp hlen
    unfold variationsOf firstNameVariations
    simp only [List.append_assoc, List.mem_append, List.mem_filter]
    exact Or.inr (Or.inl ⟨hp, by simpa using hlen⟩)

/-- Witness for C6: the general variant property instantiated at the
concrete first name JANE MARIE. -/
theorem claim6_witness :
    ("JANE MARIE" ≠ "") ∧
    toTitleCase "JANE MARIE" ∈ variationsOf "JANE MARIE" ∧
    ∀ p ∈ jsSplit (toTitleCase "JANE MARIE") ' ', p.length > 1 →
      p ∈ variationsOf "JANE MARIE" :=
  ⟨by decide, (claim6_variants.2.2.2.2 "JANE MARIE" (by decide)).1,
    (claim6_variants.2.2.2.2 "JANE MARIE" (by decide)).2⟩

/-- C7: the claim describes the intended pass-through behaviour, and
WixDirectApi.js implements it (a string that is not three
dash-separated parts with a four-character year is returned
unchanged), but WixService.js findMember does not: destructuring the
split of a non-MM-DD-YYYY string never throws, its catch fallback to
the original string is dead code, and the input 1990 is rewritten to
undefined-1990-undefined instead of passing through unchanged. -/
theorem claim7_dob_passthrough_bug :
    formattedDOB003 "1990" = "undefined-1990-undefined" ∧
    formattedDOB003 "1990" ≠ "1990" ∧
    formattedDOB003 "01-15-1990" = "1990-01-15" ∧
    formatDob004 "1990" = "1990" ∧
    formatDob004 "1990-01-15" = "1990-01-15" ∧
    formatDob004 "01-15-1990" = "1990-01-15" := by
  refine ⟨by decide, by decide, by decide, by decide, by decide, by decide⟩

/-! ## WixSdkAdapter.js searchMember, members-module draft (part_001,
second copy, lines 864-981) -/

structure SdkQuery where
  firstNameContains : Option String := none
  lastNameContains : Option String := none
  dateOfBirthEq : Option String := none
deriving Repr, DecidableEq

inductive SdkMethodKind where
  | queryM
  | listM
  | noneM
deriving Repr, DecidableEq

structure SdkMember where
  firstName : Option String := none
  lastName : Option String := none
  dateOfBirth : Option String := none
deriving Repr, DecidableEq

/-- The SDK surface the adapter probes at runtime: which member-search
method the installed SDK version exposes, and the behaviour of each. -/
structure NetSdk where
  methodKind : SdkMethodKind
  runQuery : SdkQuery → Except String (List SdkMember)
  runList : Except String (List SdkMember)

structure SdkResult where
  success : Bool
  results : List SdkMember := []
  resultCount : Nat := 0
  source : String := ""
  error : Option String := none
deriving Repr, DecidableEq

/-- searchMember lines 874-890: the searchParams object; a field is
present exactly when the input is neither falsy nor whitespace-only. -/
def sdkSearchParams (firstName lastName dateOfBirth : String) :
    Option String × Option String × Option String :=
  (if jsTrim firstName ≠ "" then some (jsTrim firstName) else none,
   if jsTrim lastName ≠ "" then some (jsTrim lastName) else none,
   if jsTrim dateOfBirth ≠ "" then some (jsTrim dateOfBirth) else none)

/-- searchMember lines 938-956: the manual filter used with the
listMembers fallback. -/
def sdkMemberMatches (fnP lnP dobP : Option String) (m : SdkMember) : Bool :=
  (match fnP with
   | none => true
   | some f => (!falsyO m.firstName) &&
       jsIncludes (jsToLower (optS m.firstName)) (jsToLower f)) &&
  (match lnP with
   | none => true
   | some g => (!falsyO m.lastName) &&
       jsIncludes (jsToLower (optS m.lastName)) (jsToLower g)) &&
  (match dobP with
   | none => true
   | some d => m.dateOfBirth == some d)

/-- WixSdkAdapter.js searchMember (members-module draft): reject an
empty searchParams object before any remote call, then use the probed
queryMembers method, the listMembers fallback, or fail when neither
exists.  The Bool component records whether a remote call was issued. -/
def searchMemberSdk (firstName lastName dateOfBirth : String) (net : NetSdk) :
    SdkResult × Bool :=
  let ps := sdkSearchParams firstName lastName dateOfBirth
  if ps.1 = none ∧ ps.2.1 = none ∧ ps.2.2 = none then
    ({ success := false, error := some invalidParamMsg }, false)
  else
    match net.methodKind with
    | .queryM =>
      match net.runQuery
          { firstNameContains := ps.1, lastNameContains := ps.2.1,
            dateOfBirthEq := ps.2.2 } with
      | .ok ms =>
        ({ success := true, results := ms, resultCount := ms.length,
           source := "wix-sdk" }, true)
      | .error e =>
        ({ success := false, error := some ("Error searching for members: " ++ e),
           source := "wix-sdk" }, true)
    | .listM =>
      match net.runList with
      | .ok ms =>
        let r := ms.filter (sdkMemberMatches ps.1 ps.2.1 ps.2.2)
        ({ success := true, results := r, resultCount := r.length,
           source := "wix-sdk" }, true)
      | .error e =>
        ({ success := false, error := some ("Error searching for members: " ++ e),
           source := "wix-sdk" }, true)
    | .noneM =>
      ({ success := false,
         error := some "Error searching for members: No compatible member search method found",
         source := "wix-sdk" }, false)

/-- C9: when first name, last name and date of birth are all absent,
empty or whitespace-only, WixService.js findMember and the SDK
adapter's searchMember both return the invalid-query error result
(success false with the missing-criteria message) and issue no remote
call. -/
theorem claim9_blank_rejected :
    ∀ fn ln dob : String, jsTrim fn = "" → jsTrim ln = "" → jsTrim dob = "" →
      (∀ net : Net003, findMember003 true fn ln dob net =
        ({ success := false, error := some invalidParamMsg, members := [] }, [])) ∧
      (∀ net : NetSdk, searchMemberSdk fn ln dob net =
        ({ success := false, error := some invalidParamMsg }, false)) := by
  intro fn ln dob h1 h2 h3
  constructor
  · intro net
    have hb : (isBlank fn && isBlank ln && isBlank dob) = true := by
      simp [isBlank, h1, h2, h3]
    simp [findMember003, hb]
  · intro net
    simp [searchMemberSdk, sdkSearchParams, h1, h2, h3]

def netSdkQ : NetSdk :=
  { methodKind := .queryM
    runQuery := fun _ => .ok []
    runList := .ok [] }

/-- Witness for C9 at concrete blank inputs. -/
theorem claim9_witness :
    (jsTrim "" = "") ∧ (jsTrim "   " = "") ∧
    findMember003 true "" "   " "" net003Empty =
      ({ success := false, error := some invalidParamMsg, members := [] }, []) ∧
    searchMemberSdk "" "   " "" netSdkQ =
      ({ success := false, error := some invalidParamMsg }, false) :=
  ⟨rfl, by decide,
    (claim9_blank_rejected "" "   " "" (by decide) (by decide) (by decide)).1 net003Empty,
    (claim9_blank_rejected "" "   " "" (by decide) (by decide) (by decide)).2 netSdkQ⟩

/-! ## WixSdkAdapter.js searchMember, CRM-contacts draft (part_001,
first copy): deduplication by contact identifier (lines 485-494).

The JS Map keyed by contact._id is modelled as an association list in
key-insertion order: set on a present key updates the stored value in
place, set on an absent key appends. -/

structure SContact where
  _id : Option String := none
  payload : String := ""
deriving Repr, DecidableEq

/-- JS Map.prototype.set. -/
def mapSet (m : List (String × SContact)) (k : String) (v : SContact) :
    List (String × SContact) :=
  if m.any (fun p => p.1 == k) then
    m.map fun p => if p.1 == k then (k, v) else p
  else m ++ [(k, v)]

/-- One iteration of the dedup forEach: contacts without a truthy _id
are dropped, the rest keyed by their _id. -/
def dedupStep (m : List (String × SContact)) (c : SContact) :
    List (String × SContact) :=
  match c._id with
  | some i => if i ≠ "" then mapSet m i c else m
  | none => m

/-- searchMember lines 485-494: build the Map over the collected
results, then take its values. -/
def dedupContacts (l : List SContact) : List SContact :=
  (l.foldl dedupStep []).map Prod.snd

/-- The last element of l whose _id equals the given identifier. -/
def lastWithId (l : List SContact) (i : String) : Option SContact :=
  l.foldl (fun acc c => if c._id == some i then some c else acc) none

/-- Lookup by key in the association-list model of the Map. -/
def assocFind (m : List (String × SContact)) (i : String) : Option SContact :=
  (m.find? fun p => p.1 == i).map Prod.snd

/-- Invariant of the Map contents: keys are distinct, every stored
contact carries its key as _id, and no key is empty. -/
def InvM (m : List (String × SContact)) : Prop :=
  (m.map Prod.fst).Nodup ∧ ∀ p ∈ m, p.2._id = some p.1 ∧ p.1 ≠ ""

theorem map_fst_update (k : String) (v : SContact) :
    ∀ (m : List (String × SContact)),
      ((m.map fun p => if p.1 == k then (k, v) else p).map Prod.fst) = m.map Prod.fst := by
  intro m
  induction m with
  | nil => rfl
  | cons p ps ih =>
    simp only [List.map_cons, ih]
    by_cases h : p.1 = k
    · simp [h]
    · simp [h]

theorem mapSet_map_fst (m : List (String × SContact)) (k : String) (v : SContact) :
    (mapSet m k v).map Prod.fst =
      if m.any (fun p => p.1 == k) then m.map Prod.fst else m.map Prod.fst ++ [k] := by
  unfold mapSet
  split
  · exact map_fst_update k v m
  · simp

theorem mapSet_mem {m : List (String × SContact)} {k : String} {v : SContact}
    {p : String × SContact} (hp : p ∈ mapSet m k v) : p = (k, v) ∨ p ∈ m := by
  unfold mapSet at hp
  split at hp
  · simp only [List.mem_map] at hp
    obtain ⟨q, hq, hqe⟩ := hp
    by_cases h : q.1 = k
    · left; rw [← hqe]; simp [h]
    · right; rw [← hqe]; simp [h]; exact hq
  · rcases List.mem_append.mp hp with h | h
    · right; exact h
    · left; simpa using h

theorem invM_mapSet {m : List (String × SContact)} {k : String} {v : SContact}
    (hm : InvM m) (hv : v._id = some k) (hk : k ≠ "") : InvM (mapSet m k v) := by
  constructor
  · rw [mapSet_map_fst]
    split
    · exact hm.1
    · rename_i hany
      have hknot : k ∉ m.map Prod.fst := by
        intro hmem
        simp only [List.mem_map] at hmem
        obtain ⟨p, hp, hpk⟩ := hmem
        have : m.any (fun p => p.1 == k) = true := by
          simp only [List.any_eq_true]
          exact ⟨p, hp, by simp [hpk]⟩
        simp [this] at hany
      simp [List.nodup_append, hm.1, hknot]
  · intro p hp
    rcases mapSet_mem hp with h | h
    · rw [h]; exact ⟨hv, hk⟩
    · exact hm.2 p h

theorem invM_dedupStep {m : List (String × SContact)} (hm : InvM m) (c : SContact) :
    InvM (dedupStep m c) := by
  cases hc : c._id with
  | none => simpa [dedupStep, hc] using hm
  | some i =>
    by_cases hi : i ≠ ""
    · simp only [dedupStep, hc, if_pos hi]
      exact invM_mapSet hm hc hi
    · simp only [dedupStep, hc, if_neg hi]
      exact hm

theorem invM_fold (l : List SContact) :
    ∀ m, InvM m → InvM (l.foldl dedupStep m) := by
  induction l with
  | nil => intro m hm; exact hm
  | cons c l ih =>
    intro m hm
    rw [List.foldl_cons]
    exact ih _ (invM_dedupStep hm c)

theorem assocFind_update (k : String) (v : SContact) (i : String) :
    ∀ (m : List (String × SContact)),
      assocFind (m.map fun p => if p.1 == k then (k, v) else p) i =
        if i = k then (if m.any (fun p => p.1 == k) then some v else none)
        else assocFind m i := by
  intro m
  induction m with
  | nil => simp [assocFind]
  | cons p ps ih =>
    by_cases hp : p.1 = k
    · by_cases hik : i = k
      · subst hik
        simp [assocFind, List.find?, hp]
      · have hkvi : ((k, v).1 == i) = false := by simpa using Ne.symm hik
        have hpik : (p.1 == i) = false := by rw [hp]; simpa using Ne.symm hik
        have hpk : (p.1 == k) = true := by simp [hp]
        unfold assocFind at ih ⊢
        simp only [List.map_cons, hpk, if_true]
        simp [hkvi, hpik, hik] at ih ⊢
        exact ih
    · by_cases hpi : p.1 = i
      · simp only [List.map_cons, if_neg (show ¬ (p.1 == k) = true by simp [hp])]
        unfold assocFind
        rw [List.find?_cons_of_pos _ (by simp [hpi]),
          List.find?_cons_of_pos _ (by simp [hpi])]
        have hik : ¬ i = k := by rw [← hpi]; exact hp
        simp [hik]
      · simp only [List.map_cons, if_neg (show ¬ (p.1 == k) = true by simp [hp])]
        unfold assocFind at ih ⊢
        rw [List.find?_cons_of_neg _ (by simp [hpi]),
          List.find?_cons_of_neg _ (by simp [hpi])]
        rw [ih]
        by_cases hik : i = k
        · simp only [if_pos hik]
          have hpk : (p.1 == k) = false := by simp [hp]
          simp only [List.any_cons, hpk, Bool.false_or]
        · simp [hik]

theorem assocFind_eq_none_of_any_false {m : List (String × SContact)} {k : String}
    (h : m.any (fun p => p.1 == k) = false) : assocFind m k = none := by
  unfold assocFind
  have : m.find? (fun p => p.1 == k) = none := by
    rw [List.find?_eq_none]
    intro p hp hpk
    have : m.any (fun p => p.1 == k) = true := by
      simp only [List.any_eq_true]
      exact ⟨p, hp, hpk⟩
    simp [this] at h
  rw [this]; rfl

theorem assocFind_mapSet (m : List (String × SContact)) (k : String) (v : SContact)
    (i : String) :
    assocFind (mapSet m k v) i = if i = k then some v else assocFind m i := by
  unfold mapSet
  by_cases hany : m.any (fun p => p.1 == k) = true
  · rw [if_pos hany, assocFind_update]
    by_cases hik : i = k <;> simp [hik, hany]
  · have hany2 : m.any (fun p => p.1 == k) = false := by
      cases h : m.any (fun p => p.1 == k)
      · rfl
      · exact absurd h hany
    rw [if_neg hany]
    unfold assocFind
    rw [List.find?_append]
    by_cases hik : i = k
    · subst hik
      have hnone : m.find? (fun p => p.1 == i) = none := by
        have := assocFind_eq_none_of_any_false hany2
        unfold assocFind at this
        cases h : m.find? (fun p => p.1 == i)
        · rfl
        · rw [h] at this; simp at this
      rw [hnone]
      simp [List.find?]
    · cases h : m.find? (fun p => p.1 == i) with
      | some q => simp [assocFind, h, hik]
      | none =>
        have hki : ((k, v).1 == i) = false := by simpa using Ne.symm hik
        simp [List.find?, hki, hik]

theorem lastWithId_acc (i : String) (l : List SContact) :
    ∀ (a : Option SContact),
      l.foldl (fun acc c => if c._id == some i then some c else acc) a =
        match l.foldl (fun acc c => if c._id == some i then some c else acc) none with
        | some c => some c
        | none => a := by
  induction l with
  | nil => intro a; rfl
  | cons c l ih =>
    intro a
    rw [List.foldl_cons, List.foldl_cons, ih, ih (if c._id == some i then some c else none)]
    cases h : l.foldl (fun acc c => if c._id == some i then some c else acc) none with
    | some d => rfl
    | none =>
      by_cases hc : c._id == some i
      · simp [hc]
      · simp [hc]

theorem assocFind_dedupFold (i : String) (hi : i ≠ "") (l : List SContact) :
    ∀ m, assocFind (l.foldl dedupStep m) i =
      match lastWithId l i with
      | some c => some c
      | none => assocFind m i := by
  induction l with
  | nil => intro m; rfl
  | cons c l ih =>
    intro m
    rw [List.foldl_cons, ih (dedupStep m c)]
    have hL : lastWithId (c :: l) i =
        match lastWithId l i with
        | some d => some d
        | none => if c._id == some i then some c else none := by
      unfold lastWithId
      rw [List.foldl_cons, lastWithId_acc i l (if c._id == some i then some c else none)]
    rw [hL]
    cases hl : lastWithId l i with
    | some d => rfl
    | none =>
      simp only []
      cases hc : c._id with
      | none => simp [dedupStep, hc]
      | some j =>
        by_cases hj : j ≠ ""
        · simp only [dedupStep, hc, if_pos hj]
          rw [assocFind_mapSet]
          by_cases hji : i = j
          · subst hji
            simp
          · rw [if_neg hji]
            have hne : (some j == some i) = false := by
              simp
              exact fun h => hji h.symm
            simp [hne]
        · have hj2 : j = "" := not_not.mp hj
          subst hj2
          simp only [dedupStep, hc, if_neg hj]
          have hne : (some "" == some i) = false := by
            simp
            exact fun h => hi h.symm
          simp [hne]

theorem countP_map_snd_le_one {m : List (String × SContact)} (hm : InvM m) (i : String) :
    (m.map Prod.snd).countP (fun c => c._id == some i) ≤ 1 := by
  induction m with
  | nil => simp
  | cons p ps ih =>
    have hInv2 : InvM ps :=
      ⟨(List.nodup_cons.mp hm.1).2, fun q hq => hm.2 q (List.mem_cons_of_mem _ hq)⟩
    have hp := hm.2 p (List.mem_cons_self p ps)
    by_cases hpi : p.1 = i
    · have hzero : (ps.map Prod.snd).countP (fun c => c._id == some i) = 0 := by
        rw [List.countP_eq_zero]
        intro c hc
        simp only [List.mem_map] at hc
        obtain ⟨q, hq, rfl⟩ := hc
        have hq2 := hm.2 q (List.mem_cons_of_mem _ hq)
        have hqk : q.1 ≠ i := by
          intro he
          have : q.1 ∈ ps.map Prod.fst := List.mem_map_of_mem Prod.fst hq
          rw [he, ← hpi] at this
          exact (List.nodup_cons.mp hm.1).1 this
        simp [hq2.1, hqk]
      simp only [List.map_cons, List.countP_cons, hzero]
      split <;> omega
    · have hfalse : ((fun c => c._id == some i) p.2) = false := by
        simp [hp.1, hpi]
      simp only [List.map_cons, List.countP_cons, hfalse]
      simpa using ih hInv2

theorem find_map_snd {m : List (String × SContact)} (hm : InvM m) (i : String) :
    (m.map Prod.snd).find? (fun c => c._id == some i) = assocFind m i := by
  induction m with
  | nil => rfl
  | cons p ps ih =>
    have hInv2 : InvM ps :=
      ⟨(List.nodup_cons.mp hm.1).2, fun q hq => hm.2 q (List.mem_cons_of_mem _ hq)⟩
    have hp := hm.2 p (List.mem_cons_self p ps)
    by_cases hpi : p.1 = i
    · simp only [List.map_cons]
      unfold assocFind
      rw [List.find?_cons_of_pos _ (by simp [hp.1, hpi]),
        List.find?_cons_of_pos _ (by simp [hpi])]
      rfl
    · simp only [List.map_cons]
      unfold assocFind
      rw [List.find?_cons_of_neg _ (by simp [hp.1, hpi]),
        List.find?_cons_of_neg _ (by simp [hpi])]
      exact ih hInv2

/-- C5: after the Map-based deduplication of searchMember, any
non-empty identifier occurs on at most one candidate, and the
candidate kept for an identifier is the last candidate carrying that
identifier in the pre-deduplication order (last-seen-wins). -/
theorem claim5_dedup_by_id (l : List SContact) (i : String) (hi : i ≠ "") :
    (dedupContacts l).countP (fun c => c._id == some i) ≤ 1 ∧
    (dedupContacts l).find? (fun c => c._id == some i) = lastWithId l i := by
  have hInv : InvM (l.foldl dedupStep []) := invM_fold l [] ⟨List.nodup_nil, by simp⟩
  constructor
  · exact countP_map_snd_le_one hInv i
  · unfold dedupContacts
    rw [find_map_snd hInv i, assocFind_dedupFold i hi l []]
    cases h : lastWithId l i with
    | some c => rfl
    | none => rfl

def sc1 : SContact := { _id := some "m-1", payload := "first" }

def sc2 : SContact := { _id := some "m-1", payload := "second" }

def sc3 : SContact := { _id := some "m-2", payload := "other" }

/-- Witness for C5: two candidates sharing identifier m-1 collapse to
the later one. -/
theorem claim5_witness :
    ("m-1" ≠ "") ∧
    (dedupContacts [sc1, sc3, sc2]).countP (fun c => c._id == some "m-1") ≤ 1 ∧
    (dedupContacts [sc1, sc3, sc2]).find? (fun c => c._id == some "m-1") =
      lastWithId [sc1, sc3, sc2] "m-1" ∧
    lastWithId [sc1, sc3, sc2] "m-1" = some sc2 :=
  ⟨by decide,
    (claim5_dedup_by_id [sc1, sc3, sc2] "m-1" (by decide)).1,
    (claim5_dedup_by_id [sc1, sc3, sc2] "m-1" (by decide)).2,
    by decide⟩

/-! ## WixSdkAdapter.js searchMember, CRM-contacts draft (part_001,
first copy, lines 372-522): query-builder search over the Contacts API. -/

inductive CrmCall where
  | firstNamePart (part : String) (limit : Nat)
  | lastNameQ (name : String) (limit : Nat)
  | allContacts (limit : Nat)
deriving Repr, DecidableEq

/-- The three query-builder calls the CRM search can issue. -/
structure NetCrm where
  queryFirstName : String → Except String (List SContact)
  queryLastName : String → Except String (List SContact)
  queryAll : Except String (List SContact)

structure CrmResult where
  success : Bool
  items : List SContact := []
  total : Nat := 0
  source : Option String := none
  error : Option String := none
  qdFirstName : String := ""
  qdLastName : String := ""
  qdDateOfBirth : String := ""
  methodUsed : String := ""
deriving Repr, DecidableEq

/-- searchMember lines 386-392: trim, lower-case, split the first name
into parts and capitalise each part (no join). -/
def firstNamePartsOf (firstName : String) : List String :=
  if firstName ≠ "" ∧ jsTrim firstName ≠ "" then
    (jsSplit (jsToLower (jsTrim firstName)) ' ').map capWord
  else []

/-- searchMember lines 394-402: trim, lower-case, split, capitalise and
re-join the last name. -/
def formattedLastNameOf (lastName : String) : String :=
  if lastName ≠ "" ∧ jsTrim lastName ≠ "" then
    joinWith " " ((jsSplit (jsToLower (jsTrim lastName)) ' ').map capWord)
  else ""

/-- WixSdkAdapter.js searchMember (CRM-contacts draft): one
startsWith-query per first-name part and one for the last name, each
with limit 50, collecting the successful non-empty responses; when no
filter produced anything, one unfiltered query of all contacts with
limit 50; then deduplication by contact _id.  Always success: true.
The second component lists the remote calls issued, in order. -/
def searchMemberCrm (firstName lastName dateOfBirth : String) (net : NetCrm) :
    CrmResult × List CrmCall :=
  let parts := firstNamePartsOf firstName
  let fln := formattedLastNameOf lastName
  let fnResults := parts.foldl (fun acc part =>
    match net.queryFirstName part with
    | .ok items => acc ++ items
    | .error _ => acc) []
  let fnCalls := parts.map fun part => CrmCall.firstNamePart part 50
  let hasFilters1 := !fnResults.isEmpty
  let lnStep : List SContact × Bool :=
    if fln ≠ "" then
      match net.queryLastName fln with
      | .ok items => if items.isEmpty then ([], false) else (items, true)
      | .error _ => ([], false)
    else ([], false)
  let lnCalls := if fln ≠ "" then [CrmCall.lastNameQ fln 50] else []
  let results2 := fnResults ++ lnStep.1
  let hasFilters2 := hasFilters1 || lnStep.2
  let allStep : List SContact × List CrmCall :=
    if !hasFilters2 then
      (match net.queryAll with
       | .ok items => items
       | .error _ => [], [CrmCall.allContacts 50])
    else (results2, [])
  let unique := dedupContacts allStep.1
  ({ success := true
     items := unique
     total := unique.length
     source := some "wix-crm-contacts"
     qdFirstName := joinWith ", " parts
     qdLastName := fln
     qdDateOfBirth := dateOfBirth
     methodUsed := "queryContacts" },
   (fnCalls ++ lnCalls) ++ allStep.2)

theorem mapSet_length (m : List (String × SContact)) (k : String) (v : SContact) :
    (mapSet m k v).length ≤ m.length + 1 := by
  unfold mapSet
  split
  · simp
  · simp

theorem dedupStep_length (m : List (String × SContact)) (c : SContact) :
    (dedupStep m c).length ≤ m.length + 1 := by
  cases hc : c._id with
  | none =>
    simp only [dedupStep, hc]
    omega
  | some i =>
    by_cases hi : i ≠ ""
    · simp only [dedupStep, hc, if_pos hi]
      exact mapSet_length m i c
    · simp only [dedupStep, hc, if_neg hi]
      omega

theorem dedupFold_length (l : List SContact) :
    ∀ m : List (String × SContact), (l.foldl dedupStep m).length ≤ m.length + l.length := by
  induction l with
  | nil => intro m; simp
  | cons c l ih =>
    intro m
    rw [List.foldl_cons]
    have h1 := ih (dedupStep m c)
    have h2 := dedupStep_length m c
    simp only [List.length_cons]
    omega

theorem dedup_length_le (l : List SContact) : (dedupContacts l).length ≤ l.length := by
  unfold dedupContacts
  rw [List.length_map]
  have := dedupFold_length l []
  simpa using this

/-- C10: when first and last name are both blank, the CRM-contacts
searchMember applies no name filter: it issues exactly one query for
all contacts with limit 50 and returns success true with whatever
(deduplicated) contacts that query produced — up to 50 unrelated
candidates rather than an empty list or an error. -/
theorem claim10_blank_crm_returns_all (fn ln dob : String) (net : NetCrm)
    (h1 : jsTrim fn = "") (h2 : jsTrim ln = "") :
    (searchMemberCrm fn ln dob net).2 = [CrmCall.allContacts 50] ∧
    ∀ items, net.queryAll = .ok items →
      (searchMemberCrm fn ln dob net).1 =
        { success := true
          items := dedupContacts items
          total := (dedupContacts items).length
          source := some "wix-crm-contacts"
          qdDateOfBirth := dob
          methodUsed := "queryContacts" } ∧
      (items.length ≤ 50 → (searchMemberCrm fn ln dob net).1.items.length ≤ 50) := by
  have hp : firstNamePartsOf fn = [] := by
    unfold firstNamePartsOf
    rw [if_neg]
    intro hc
    exact hc.2 h1
  have hl : formattedLastNameOf ln = "" := by
    unfold formattedLastNameOf
    rw [if_neg]
    intro hc
    exact hc.2 h2
  refine ⟨?_, ?_⟩
  · simp [searchMemberCrm, hp, hl]
  · intro items hq
    refine ⟨?_, ?_⟩
    · simp [searchMemberCrm, hp, hl, hq, joinWith]
    · intro hlen
      have hle := dedup_length_le items
      have : (searchMemberCrm fn ln dob net).1.items = dedupContacts items := by
        simp [searchMemberCrm, hp, hl, hq]
      rw [this]
      omega

def netCrmAll : NetCrm :=
  { queryFirstName := fun _ => .ok []
    queryLastName := fun _ => .ok []
    queryAll := .ok [sc1, sc3] }

/-- Witness for C10: blank names against an oracle returning two
arbitrary contacts. -/
theorem claim10_witness :
    (jsTrim "" = "") ∧ (jsTrim " " = "") ∧
    (searchMemberCrm "" " " "01-01-1990" netCrmAll).2 = [CrmCall.allContacts 50] ∧
    (searchMemberCrm "" " " "01-01-1990" netCrmAll).1 =
      { success := true
        items := dedupContacts [sc1, sc3]
        total := (dedupContacts [sc1, sc3]).length
        source := some "wix-crm-contacts"
        qdDateOfBirth := "01-01-1990"
        methodUsed := "queryContacts" } ∧
    (searchMemberCrm "" " " "01-01-1990" netCrmAll).1.items.length ≤ 50 :=
  ⟨rfl, by decide,
    (claim10_blank_crm_returns_all "" " " "01-01-1990" netCrmAll rfl (by decide)).1,
    ((claim10_blank_crm_returns_all "" " " "01-01-1990" netCrmAll rfl (by decide)).2
      [sc1, sc3] rfl).1,
    ((claim10_blank_crm_returns_all "" " " "01-01-1990" netCrmAll rfl (by decide)).2
      [sc1, sc3] rfl).2 (by decide)⟩

/-! ## WixService.js findMember, SDK-collection draft (part_002):
exact-match promotion (lines 169-201). -/

structure CDetails where
  firstName : Option String := none
  lastName : Option String := none
  email : Option String := none
  phone : Option String := none
deriving Repr, DecidableEq

structure CMember where
  _id : Option String := none
  contactDetails : Option CDetails := none
  dateOfBirth : Option String := none
  status : Option String := none
  _createdDate : Option String := none
  extendedFields : List (String × String) := []
deriving Repr, DecidableEq

structure Profile002 where
  id : Option String := none
  source : String := ""
  firstName : String := ""
  lastName : String := ""
  fullName : String := ""
  email : String := ""
  phone : String := ""
  dateOfBirth : String := ""
  status : String := ""
  createdDate : String := ""
  membershipStatus : String := ""
  extendedFields : List (String × String) := []
deriving Repr, DecidableEq

/-- findMember (part_002) lines 170-184: the profile built for one
matching member. -/
def mkProfile002 (m : CMember) : Profile002 :=
  let ci := m.contactDetails.getD {}
  { id := m._id
    source := "wix-sdk"
    firstName := optS ci.firstName
    lastName := optS ci.lastName
    fullName := jsTrim (optS ci.firstName ++ " " ++ optS ci.lastName)
    email := optS ci.email
    phone := optS ci.phone
    dateOfBirth := optS m.dateOfBirth
    status := optS m.status
    createdDate := optS m._createdDate
    membershipStatus := optS m.status
    extendedFields := m.extendedFields }

/-- findMember (part_002) lines 186-192: a candidate is an exact match
when its first name, last name (case-insensitively) and date of birth
all equal the query's canonical values, each side being present. -/
def isExact002 (formattedFirstName formattedLastName dateOfBirth : String)
    (m : CMember) : Bool :=
  let ci := m.contactDetails.getD {}
  ((!falsyO ci.firstName) &&
    (jsToLower (optS ci.firstName) == jsToLower formattedFirstName)) &&
  ((!falsyO ci.lastName) &&
    (jsToLower (optS ci.lastName) == jsToLower formattedLastName)) &&
  ((!(dateOfBirth == "")) && (m.dateOfBirth == some dateOfBirth))

/-- findMember (part_002) lines 169-201: exact matches are unshifted to
the front of the result array, everything else is pushed to the back. -/
def processMatching (formattedFirstName formattedLastName dateOfBirth : String)
    (ms : List CMember) : List Profile002 :=
  ms.foldl (fun results m =>
    if isExact002 formattedFirstName formattedLastName dateOfBirth m then
      mkProfile002 m :: results
    else results ++ [mkProfile002 m]) []

theorem processMatching_foldl (ffn fln dob : String) :
    ∀ (ms : List CMember) (acc : List Profile002),
      ms.foldl (fun results m =>
        if isExact002 ffn fln dob m then mkProfile002 m :: results
        else results ++ [mkProfile002 m]) acc =
      ((ms.filter (isExact002 ffn fln dob)).map mkProfile002).reverse ++ acc ++
        (ms.filter fun m => !(isExact002 ffn fln dob m)).map mkProfile002 := by
  intro ms
  induction ms with
  | nil => intro acc; simp
  | cons m ms ih =>
    intro acc
    rw [List.foldl_cons]
    by_cases h : isExact002 ffn fln dob m
    · rw [if_pos h, ih]
      simp [List.filter_cons, h]
    · rw [if_neg h, ih]
      simp [List.filter_cons, h]

/-- C4: the processing loop of the part_002 findMember equals the
reversed exact matches followed by the non-exact matches in their
original order: every exact-match candidate (normalised first name,
last name and date of birth all equal to the query's canonical values)
appears before every non-exact candidate, and the non-exact candidates
keep their relative order. -/
theorem claim4_exact_promotion (ffn fln dob : String) (ms : List CMember) :
    processMatching ffn fln dob ms =
      ((ms.filter (isExact002 ffn fln dob)).map mkProfile002).reverse ++
        (ms.filter fun m => !(isExact002 ffn fln dob m)).map mkProfile002 := by
  unfold processMatching
  rw [processMatching_foldl]
  simp

end MiniCheckin
